import Mathlib

/-!
# Verification of the rocm-smi-exporter field-normalization and publishing pipeline

A shallow embedding of `src/main.py` of the rocm-smi-exporter repository.

Modelling conventions:

* A raw JSON field value (Python `str`, `int` or `float`) is a `PyVal`; a value
  that is structurally absent (Python `None`, as returned by `dict.get` on a
  missing key) is `Option.none` at the use sites.
* Python numbers are modelled as exact rationals (`ℚ`).  Every concrete number
  appearing in the verified pipeline properties (`37.5`, `160`,
  `160 * 0.1 = 16.0`) is computed exactly by binary64 arithmetic in the
  original program as well, so the rational model agrees with the Python
  observable values at these points.  Where the binary64 limits themselves
  matter — the totality and finiteness of `_to_float` — the refined model
  `toFloatPy` additionally captures `float()` overflow (`OverflowError` on
  oversized ints, saturation to `inf` on oversized decimal literals).
* A JSON object is an association list with distinct keys; `dictGet` models
  `dict.get` / `dict.__getitem__` / the `in` containment test.
* The Prometheus registry is modelled as an association list from
  (gauge, label-value list) pairs to the most recently set sample;
  `gauge.labels(**labels).set(v)` is an overwrite-or-append update.
* Only ASCII text flows through the pipeline, so Python's `str.strip`,
  `str.upper` and the regexes are modelled over ASCII character classes.
-/

namespace RocmSmi

/-- A raw JSON scalar as Python sees it: a string, or a number
(`int`/`float`, modelled as an exact rational). -/
inductive PyVal where
  | str (s : String)
  | num (q : ℚ)
deriving DecidableEq

/-- A flat JSON object (one per-device record of the snapshot): an
association list with distinct keys, in JSON document order. -/
abbrev Record := List (String × PyVal)

/-- Python `d.get(k)` / `d[k]` on a string-keyed dict: the value under `k`,
or `none` when `k` is not a key.  (`k in d` is `(dictGet d k).isSome`.) -/
def dictGet {α : Type} (d : List (String × α)) (k : String) : Option α :=
  match d with
  | [] => none
  | (k', v) :: t => if k' = k then some v else dictGet t k

/-- Python `d.get(k, default)`. -/
def dictGetD (d : Record) (k : String) (dflt : PyVal) : PyVal :=
  (dictGet d k).getD dflt

/-- Python `k in d` for a string-keyed dict. -/
def hasKey (d : Record) (k : String) : Bool :=
  (dictGet d k).isSome

/-- Python truthiness of a scalar: a string is truthy iff non-empty, a
number is truthy iff non-zero. -/
def pyTruthy : PyVal → Bool
  | .str s => s != ""
  | .num q => q != 0

/-- Python `a or b` on scalars: `a` if `a` is truthy, else `b`. -/
def pyOr (a b : PyVal) : PyVal :=
  if pyTruthy a then a else b

/-- The characters stripped by Python `str.strip()` and matched by the
regex class `\s` (ASCII fragment). -/
def isPySpace (c : Char) : Bool :=
  c == ' ' || c == '\t' || c == '\n' || c == '\r' || c == '\x0b' || c == '\x0c'

/-- Python `s.strip()`: drop leading and trailing whitespace. -/
def pyStrip (s : String) : String :=
  String.mk (((s.data.dropWhile isPySpace).reverse.dropWhile isPySpace).reverse)

/-- Python `s.upper()` (ASCII fragment). -/
def pyUpper (s : String) : String :=
  String.mk (s.data.map Char.toUpper)

/-- Python `str(v)` on a scalar.  The numeric branch is never reached by
the embedded code paths that matter here (`_is_na` and `_to_float` test
`isinstance(v, (int, float))` first, and the only other use is on the
driver-version field, a string in rocm-smi output); its rendering is a
placeholder. -/
def pyValStr : PyVal → String
  | .str s => s
  | .num q => toString q

/-- `_is_na(v)` from `src/main.py`: `None` is N/A; a number is never N/A;
any other value is N/A iff `str(v).strip().upper() == "N/A"`. -/
def isNA : Option PyVal → Bool
  | none => true
  | some (.num _) => false
  | some (.str s) => pyUpper (pyStrip s) == "N/A"

/-!
## The number regex `[-+]?\d+(?:\.\d+)?` and `float()` of its match

`_rx_number.search(s)` finds the leftmost occurrence of an optionally
signed decimal literal (optional fractional part); `float(m.group(0))`
converts the matched literal to a number.  A matched literal is
represented as a `NumLit` (sign, integer-part digits value, fractional
digits value and count), and `numLitVal` is the value `float()` assigns
to it.
-/

/-- A matched decimal literal `[-+]?\d+(?:\.\d+)?`: sign, integer part,
fractional digits read as a number, and the number of fractional digits. -/
structure NumLit where
  neg : Bool
  intPart : Nat
  fracPart : Nat
  fracLen : Nat
deriving DecidableEq

/-- Value of a run of decimal digit characters. -/
def digitsToNat (ds : List Char) : Nat :=
  ds.foldl (fun a c => 10 * a + (c.toNat - '0'.toNat)) 0

/-- The numeric value `float()` assigns to a matched decimal literal. -/
def numLitVal (t : NumLit) : ℚ :=
  (if t.neg then -1 else 1) * ((t.intPart : ℚ) + (t.fracPart : ℚ) / 10 ^ t.fracLen)

/-- Match `[-+]?\d+(?:\.\d+)?` anchored at the start of `cs` (greedy, as
the Python engine matches it at a fixed starting position): an optional
sign, then at least one digit, then optionally a dot followed by at least
one digit.  If the dot is not followed by a digit the optional group is
not taken.  If the sign is not followed by a digit the whole match fails
(backtracking over the sign cannot help, since the sign character itself
is not a digit). -/
def matchNumAt (cs : List Char) : Option NumLit :=
  let (neg, rest) :=
    match cs with
    | '-' :: t => (true, t)
    | '+' :: t => (false, t)
    | _ => (false, cs)
  let ip := rest.takeWhile Char.isDigit
  let rest2 := rest.dropWhile Char.isDigit
  if ip.isEmpty then none
  else
    match rest2 with
    | '.' :: t =>
      let fp := t.takeWhile Char.isDigit
      if fp.isEmpty then some ⟨neg, digitsToNat ip, 0, 0⟩
      else some ⟨neg, digitsToNat ip, digitsToNat fp, fp.length⟩
    | _ => some ⟨neg, digitsToNat ip, 0, 0⟩

/-- `_rx_number.search`: try the pattern at each start position from the
left; the first position where it matches wins. -/
def searchNum : List Char → Option NumLit
  | [] => none
  | c :: t =>
    match matchNumAt (c :: t) with
    | some q => some q
    | none => searchNum t

/-- `_to_float(v, scale=1.0)` from `src/main.py`: `None` for N/A values;
native numbers are scaled directly; otherwise the first decimal literal
embedded in `str(v)` is extracted and scaled, and `None` is returned when
there is none.  This model idealizes binary64: in-range values are exact
and the overflow behaviors of `float()` are invisible; `toFloatPy` below
refines it where those behaviors matter. -/
def toFloat (v : Option PyVal) (scale : ℚ := 1) : Option ℚ :=
  if isNA v then none
  else
    match v with
    | some (.num q) => some (q * scale)
    | some (.str s) =>
      match searchNum s.data with
      | none => none
      | some t => some (numLitVal t * scale)
    | none => none

/-- `_first_key(d, keys)` from `src/main.py`: the first name in `keys`
that is a key of `d`, or `None`. -/
def firstKey (d : Record) (keys : List String) : Option String :=
  match keys with
  | [] => none
  | k :: t => if hasKey d k then some k else firstKey d t

/-- `m.get(k)` where `k` is the (optional) result of `_first_key`:
Python `dict.get(None)` returns `None` since no key of a JSON object is
`None`. -/
def recGet (m : Record) : Option String → Option PyVal
  | none => none
  | some k => dictGet m k

/-!
## The refined normalizer `toFloatPy`: `_to_float` with binary64 overflow

`toFloat` above idealizes every Python number as an exact rational, which
erases two behaviors of `_to_float`: `float(v)` on an `int` too large for
binary64 (reachable, since `json.loads` yields arbitrary-precision ints)
raises `OverflowError`, and `float(m.group(0))` on an overflowing decimal
literal saturates to the non-finite `inf` (and an overflowing product
`float(v) * scale` is likewise `inf`).  `toFloatPy` refines `toFloat` by
modelling exactly these: for an *exact* input value the binary64
conversion overflows precisely when its magnitude reaches
`2^1024 - 2^970` (the smallest magnitude that rounds to infinity under
round-to-nearest-even; every finite double is at most `2^1024 - 2^971`).
In-range results are still idealized as exact rationals — rounding of
in-range values is the one idealization kept, and it does not affect the
error/infinity structure.  `toFloat_eq_of_pyFinite` below ties the two
models together: whenever the refined normalizer returns a finite value,
`toFloat` returns the same value.
-/

/-- The exceptions `float()` can raise inside `_to_float`. -/
inductive PyNumError where
  | overflowError
deriving DecidableEq

/-- A Python `float`: a finite value (idealized exact), a signed
infinity, or NaN. -/
inductive PyFloat where
  | finite (q : ℚ)
  | inf (neg : Bool)
  | nan
deriving DecidableEq

/-- The binary64 overflow threshold: an exact value of magnitude at least
`2^1024 - 2^970` rounds to infinity under round-to-nearest-even. -/
def overflowThreshold : ℚ := 2 ^ 1024 - 2 ^ 970

/-- `float(v)` for a Python `int` or `float` `v`: raises `OverflowError`
when the magnitude reaches the binary64 overflow threshold (only an
`int` can, since every finite double is below it). -/
def pyFloatOfNum (q : ℚ) : Except PyNumError PyFloat :=
  if overflowThreshold ≤ |q| then .error .overflowError else .ok (.finite q)

/-- `float(m.group(0))` for a matched decimal literal: C `strtod`
saturates, so an overflowing literal yields a signed infinity instead of
raising. -/
def pyFloatOfLit (t : NumLit) : PyFloat :=
  if overflowThreshold ≤ |numLitVal t| then .inf t.neg else .finite (numLitVal t)

/-- Binary64 multiplication `x * scale` for a finite double `scale`
(idealized exact): a finite product overflows to a signed infinity at
the threshold; an infinity times a non-zero scale keeps or flips its
sign, and times zero is NaN. -/
def pyFloatMul : PyFloat → ℚ → PyFloat
  | .finite q, scale =>
    if overflowThreshold ≤ |q * scale| then .inf (decide (q * scale < 0))
    else .finite (q * scale)
  | .inf b, scale =>
    if scale = 0 then .nan
    else if scale < 0 then .inf (!b) else .inf b
  | .nan, _ => .nan

/-- `_to_float(v, scale=1.0)` with faithful `float()` semantics: same
control flow as `toFloat`, but the numeric conversions go through
`pyFloatOfNum` / `pyFloatOfLit` / `pyFloatMul`, so an oversized `int`
input raises `OverflowError` and an overflowing decimal literal (or
product) produces a non-finite result. -/
def toFloatPy (v : Option PyVal) (scale : ℚ := 1) : Except PyNumError (Option PyFloat) :=
  if isNA v then .ok none
  else
    match v with
    | some (.num q) =>
      match pyFloatOfNum q with
      | .error e => .error e
      | .ok f => .ok (some (pyFloatMul f scale))
    | some (.str s) =>
      match searchNum s.data with
      | none => .ok none
      | some t => .ok (some (pyFloatMul (pyFloatOfLit t) scale))
    | none => .ok none

/-- A decimal literal of 309 digits with value `18 * 10^307 = 1.8e308`,
just beyond the binary64 overflow threshold: `float()` of this string is
`inf` in Python. -/
def strBig : String := String.mk ('1' :: '8' :: List.replicate 307 '0')

/-!
## The Prometheus metric registry

One (Lean) identifier per `Gauge(...)` declared in `src/main.py`, named
after the Python variable holding it.  A published sample is keyed by the
gauge and the ordered list of label name/value pairs passed to
`gauge.labels(...)`; `set` overwrites the sample for an existing label
combination and creates it otherwise (last-write-wins).
-/

/-- The fixed catalog of gauges declared at module scope in `src/main.py`. -/
inductive GaugeId where
  | gpuEdgeTemperature
  | gpuJunctionTemperature
  | gpuMemTemperature
  | gpuUsage
  | gpuVRAMUsage
  | umcActivity
  | mmActivity
  | socketPowerNow
  | socketPowerAvg
  | pkgPowerAvg
  | pkgPowerMax
  | voltageMilliV
  | fanRpm
  | clkCurrentMHz
  | clkAverageMHz
  | pcieWidthLanes
  | pcieSpeedGTs
  | energyAccumulatorUJ
  | accumulatedEnergyUJ
  | deviceInfo
  | softwareInfo
deriving DecidableEq

/-- Label name/value pairs as passed to `gauge.labels(...)`, in keyword
order. -/
abbrev LabelVals := List (String × PyVal)

/-- A (gauge, label combination) pair identifying one sample. -/
abbrev SampleKey := GaugeId × LabelVals

/-- The registry state: the most recently set value of every
(gauge, label combination) pair that has ever been set. -/
abbrev Registry := List (SampleKey × ℚ)

/-- `gauge.labels(...).set(v)`: overwrite the sample for this label
combination if it exists, create it otherwise. -/
def setSample : Registry → SampleKey → ℚ → Registry
  | [], k, v => [(k, v)]
  | (k', v') :: t, k, v => if k' = k then (k, v) :: t else (k', v') :: setSample t k v

/-- The current sample for a (gauge, label combination) pair, if any. -/
def getSample : Registry → SampleKey → Option ℚ
  | [], _ => none
  | (k', v) :: t, k => if k' = k then some v else getSample t k

/-- The inline publishing idiom `if v is not None: gauge.labels(...).set(v)`
used for the voltage, clock and PCIe metrics in `src/main.py`. -/
def setOpt (r : Registry) (k : SampleKey) : Option ℚ → Registry
  | none => r
  | some v => setSample r k v

/-- `_set_if_not_none(gauge, labels, value)` from `src/main.py`: publish
only when the value is present.  (The `try/except` around `set` only
guards against label-cardinality mistakes, which are impossible for the
well-formed label lists built by the main loop, so `set` never fails in
the model.) -/
def setIfNotNone (r : Registry) (g : GaugeId) (labels : LabelVals) (value : Option ℚ) :
    Registry :=
  match value with
  | none => r
  | some v => setSample r (g, labels) v

/-!
## The per-device snapshot processing (body of the card loop in `__main__`)
-/

/-- The `labels` dict built for each card: Device Identity with
"unknown" fallbacks. -/
def baseLabels (m : Record) : LabelVals :=
  [("device_name", dictGetD m "Device Name" (.str "unknown")),
   ("device_id", dictGetD m "Device ID" (.str "unknown")),
   ("subsystem_id", dictGetD m "Subsystem ID" (.str "unknown"))]

/-- The `gfx_version` label of `deviceInfo`:
`m.get("GFX Version", "") or m.get("GFX version", "")` — Python `or`,
deciding by truthiness of the first operand. -/
def gfxVersionLabel (m : Record) : PyVal :=
  pyOr (dictGetD m "GFX Version" (.str "")) (dictGetD m "GFX version" (.str ""))

/-- The full label list passed to `deviceInfo.labels(...)`. -/
def deviceInfoLabels (m : Record) : LabelVals :=
  [("device_name", dictGetD m "Device Name" (.str "unknown")),
   ("device_id", dictGetD m "Device ID" (.str "unknown")),
   ("subsystem_id", dictGetD m "Subsystem ID" (.str "unknown")),
   ("vbios", dictGetD m "VBIOS version" (.str "")),
   ("gfx_version", gfxVersionLabel m),
   ("card_series", dictGetD m "Card Series" (.str "")),
   ("card_vendor", dictGetD m "Card Vendor" (.str ""))]

/-- The voltage-rail loop table: raw field name and rail label. -/
def railTable : List (String × String) :=
  [("voltage_soc (mV)", "soc"),
   ("voltage_gfx (mV)", "gfx"),
   ("voltage_mem (mV)", "mem"),
   ("Voltage (mV)", "vcore")]

/-- The current-clock loop table: raw field name and clock label. -/
def clkCurrentTable : List (String × String) :=
  [("current_gfxclk (MHz)", "gfxclk"),
   ("current_socclk (MHz)", "socclk"),
   ("current_uclk (MHz)", "uclk"),
   ("current_vclk0 (MHz)", "vclk0"),
   ("current_dclk0 (MHz)", "dclk0")]

/-- The average-clock loop table: raw field name and clock label. -/
def clkAverageTable : List (String × String) :=
  [("average_gfxclk_frequency (MHz)", "gfxclk"),
   ("average_socclk_frequency (MHz)", "socclk"),
   ("average_uclk_frequency (MHz)", "uclk"),
   ("average_vclk0_frequency (MHz)", "vclk0"),
   ("average_dclk0_frequency (MHz)", "dclk0")]

/-- One iteration of `for card, m in data.items()` (the per-card body in
`__main__` of `src/main.py`), acting on the registry.  The statements
appear in source order. -/
def processCard (r : Registry) (m : Record) : Registry :=
  let labels := baseLabels m
  let r0 := setSample r (GaugeId.deviceInfo, deviceInfoLabels m) 1
  let r1 := setIfNotNone r0 .gpuEdgeTemperature labels
    (toFloat (recGet m (firstKey m
      ["Temperature (Sensor edge) (C)", "temperature_edge (C)"])))
  let r2 := setIfNotNone r1 .gpuJunctionTemperature labels
    (toFloat (recGet m (firstKey m
      ["Temperature (Sensor junction) (C)", "temperature_hotspot (C)"])))
  let r3 := setIfNotNone r2 .gpuMemTemperature labels
    (toFloat (recGet m (firstKey m
      ["Temperature (Sensor memory) (C)", "temperature_mem (C)"])))
  let usage := toFloat (recGet m (firstKey m
    ["GPU use (%)", "average_gfx_activity (%)"]))
  let r4 := setIfNotNone r3 .gpuUsage labels usage
  let vram := toFloat (dictGet m "GPU Memory Allocated (VRAM%)")
  let r5 := setIfNotNone r4 .gpuVRAMUsage labels vram
  let r6 := setIfNotNone r5 .umcActivity labels
    (toFloat (dictGet m "average_umc_activity (%)"))
  let r7 := setIfNotNone r6 .mmActivity labels
    (toFloat (dictGet m "average_mm_activity (%)"))
  let nowPowerKey := firstKey m
    ["Current Socket Graphics Package Power (W)", "current_socket_power (W)"]
  let avgSockKey := firstKey m ["average_socket_power (W)"]
  let avgPkgKey := firstKey m ["Average Graphics Package Power (W)"]
  let maxPkgKey := firstKey m ["Max Graphics Package Power (W)"]
  let r8 := setIfNotNone r7 .socketPowerNow labels (toFloat (recGet m nowPowerKey))
  let r9 := setIfNotNone r8 .socketPowerAvg labels (toFloat (recGet m avgSockKey))
  let r10 := setIfNotNone r9 .pkgPowerAvg labels (toFloat (recGet m avgPkgKey))
  let r11 := setIfNotNone r10 .pkgPowerMax labels (toFloat (recGet m maxPkgKey))
  let r12 := railTable.foldl (fun acc p =>
    setOpt acc (GaugeId.voltageMilliV, labels ++ [("rail", PyVal.str p.2)])
      (toFloat (dictGet m p.1))) r11
  let r13 := setIfNotNone r12 .fanRpm labels
    (toFloat (dictGet m "current_fan_speed (rpm)"))
  let r14 := clkCurrentTable.foldl (fun acc p =>
    setOpt acc (GaugeId.clkCurrentMHz, labels ++ [("clock", PyVal.str p.2)])
      (toFloat (dictGet m p.1))) r13
  let r15 := clkAverageTable.foldl (fun acc p =>
    setOpt acc (GaugeId.clkAverageMHz, labels ++ [("clock", PyVal.str p.2)])
      (toFloat (dictGet m p.1))) r14
  let width := toFloat (dictGet m "pcie_link_width (Lanes)")
  let r16 := setOpt r15 (GaugeId.pcieWidthLanes, labels) width
  let speed01 := toFloat (dictGet m "pcie_link_speed (0.1 GT/s)")
  let r17 := setOpt r16 (GaugeId.pcieSpeedGTs, labels)
    (speed01.map (fun s => s * (1 / 10)))
  let r18 := setIfNotNone r17 .energyAccumulatorUJ labels
    (toFloat (recGet m (firstKey m
      ["energy_accumulator (15.259uJ (2^-16))", "Energy counter"])))
  let r19 := setIfNotNone r18 .accumulatedEnergyUJ labels
    (toFloat (dictGet m "Accumulated Energy (uJ)"))
  r19

/-!
## One poll-loop iteration
-/

/-- One poll cycle's parsed tool output: top-level JSON keys (the literal
"system" key or per-device card keys) to flat records, in document order. -/
abbrev Snapshot := List (String × Record)

/-- The body of `while True:` in `__main__` after a snapshot has been
obtained: the `system` block updates `driver_version` and publishes
`softwareInfo`, then every non-"system" card is processed in order.
Returns the updated `driver_version` and registry. -/
def runCycle (rsmiVer rlibVer driverVer : String) (r : Registry) (data : Snapshot) :
    String × Registry :=
  let sysStep :=
    match dictGet data "system" with
    | some sys =>
      match dictGet sys "Driver version" with
      | some dv =>
        let d := pyStrip (pyValStr dv)
        (d, setSample r (GaugeId.softwareInfo,
          [("driver_version", PyVal.str d),
           ("rocm_smi_version", PyVal.str rsmiVer),
           ("rocm_smi_lib_version", PyVal.str rlibVer)]) 1)
      | none => (driverVer, r)
    | none => (driverVer, r)
  (sysStep.1,
   data.foldl (fun acc p => if p.1 = "system" then acc else processCard acc p.2)
     sysStep.2)

/-- The Python exceptions that can escape `getGPUMetrics()`. -/
inductive PyError where
  | calledProcessError
  | jsonDecodeError
deriving DecidableEq

/-- Outcome of the external invocation `rocm-smi -a --json` for one
cycle: the process exits non-zero (so `check_output` raises
`CalledProcessError`), or it produces output, whose parse by the
`json.loads` collaborator either fails or yields a snapshot. -/
inductive AcqOutcome where
  | toolFailure
  | toolOutput (parsed : Except Unit Snapshot)

/-- `getGPUMetrics()` from `src/main.py`:
`json.loads(check_output(["rocm-smi", "-a", "--json"]))` with no handler —
a non-zero exit or invalid JSON raises. -/
def getGPUMetrics : AcqOutcome → Except PyError Snapshot
  | .toolFailure => .error .calledProcessError
  | .toolOutput (.error _) => .error .jsonDecodeError
  | .toolOutput (.ok data) => .ok data

/-- Result of one iteration of the poll loop: `fatal = some e` means the
iteration raised `e`; since the `while True:` body has no exception
handler, such an error propagates out of `__main__` and terminates the
process. -/
structure IterationResult where
  fatal : Option PyError
  driverVer : String
  registry : Registry
deriving DecidableEq

/-- One iteration of the `while True:` poll loop in `__main__`:
acquire a snapshot via `getGPUMetrics` and, on success, run the cycle;
on failure the raised error escapes before any registry access. -/
def pollIteration (rsmiVer rlibVer driverVer : String) (r : Registry)
    (out : AcqOutcome) : IterationResult :=
  match getGPUMetrics out with
  | .error e => ⟨some e, driverVer, r⟩
  | .ok data =>
    let res := runCycle rsmiVer rlibVer driverVer r data
    ⟨none, res.1, res.2⟩

/-!
## The startup version query `_get_versions`

`re.search(r"ROCM-SMI version:\s*(.+)", out)`: the pattern is a literal,
then `\s*`, then a captured `(.+)` where `.` matches anything except a
newline.  `matchWsDotPlus` matches `\s*(.+)` at a fixed position with the
engine's backtracking order (longest whitespace run first) and returns
the captured group; `searchVer` scans start positions from the left.
-/

/-- The captured group of `(.+)` at a fixed start: the maximal run of
non-newline characters. -/
def takeLine (cs : List Char) : List Char :=
  cs.takeWhile (fun c => c != '\n')

/-- Match `\s*(.+)` at the start of `cs`, returning the group captured by
`(.+)`.  Greedy `\s*` first; on failure of the rest, backtrack one
whitespace character at a time.  A group can only start at a non-newline
character. -/
def matchWsDotPlus : List Char → Option (List Char)
  | [] => none
  | c :: t =>
    if isPySpace c then
      match matchWsDotPlus t with
      | some g => some g
      | none => if c == '\n' then none else some (takeLine (c :: t))
    else some (takeLine (c :: t))

/-- `re.search` for `lit` followed by `\s*(.+)`: try each start position
from the left; at a position where the literal matches but the tail does
not, resume scanning at the next position. -/
def searchVer (lit : List Char) : List Char → Option (List Char)
  | [] => none
  | c :: t =>
    if List.isPrefixOf lit (c :: t) then
      match matchWsDotPlus (List.drop lit.length (c :: t)) with
      | some g => some g
      | none => searchVer lit t
    else searchVer lit t

/-- The literal part of the first version pattern. -/
def rsmiVerPat : List Char := "ROCM-SMI version:".data

/-- The literal part of the second version pattern. -/
def rlibVerPat : List Char := "ROCM-SMI-LIB version:".data

/-- Outcome of the startup invocation `rocm-smi -V`: `failed` models
`check_output` raising `CalledProcessError` (non-zero exit), which
`_get_versions` catches and logs as a warning; otherwise the decoded
stdout text. -/
inductive VersionQueryOutcome where
  | failed
  | output (out : String)

/-- `_get_versions()` from `src/main.py`: both version strings start as
`""`; a failed invocation leaves them empty (warning only), and a pattern
that does not match leaves its string empty; a matched group is
`.strip()`ed. -/
def getVersions : VersionQueryOutcome → String × String
  | .failed => ("", "")
  | .output out =>
    let rsmiVer :=
      match searchVer rsmiVerPat out.data with
      | some g => pyStrip (String.mk g)
      | none => ""
    let rlibVer :=
      match searchVer rlibVerPat out.data with
      | some g => pyStrip (String.mk g)
      | none => ""
    (rsmiVer, rlibVer)

/-!
## Statement-side definitions

These are used only to state properties; the executable model above is
what they are compared against.
-/

/-- The Schema Reconciler as the spec words its contract: given a record
and an ordered candidate list, return the value under the first candidate
name present in the record, or "no value" if none are present. -/
def reconcilerSpec (d : Record) : List String → Option PyVal
  | [] => none
  | k :: keys =>
    match dictGet d k with
    | some v => some v
    | none => reconcilerSpec d keys

/-- The logical per-device metrics of the pipeline: every measurement the
card loop publishes conditionally (each voltage rail and clock domain
counts separately, since each owns its own label combination).  The
always-published `deviceInfo` presence marker is not a logical metric. -/
inductive LMetric where
  | edgeTemp
  | junctionTemp
  | memTemp
  | usage
  | vram
  | umc
  | mm
  | powerNow
  | powerAvgSocket
  | powerAvgPkg
  | powerMax
  | railSoc
  | railGfx
  | railMem
  | railVcore
  | fan
  | clkCurGfx
  | clkCurSoc
  | clkCurU
  | clkCurV
  | clkCurD
  | clkAvgGfx
  | clkAvgSoc
  | clkAvgU
  | clkAvgV
  | clkAvgD
  | pcieWidth
  | pcieSpeed
  | energyAcc
  | energyAccum
deriving DecidableEq

/-- The ordered candidate field names (schema aliases) of each logical
metric, exactly as listed in the card loop of `src/main.py`. -/
def lmKeys : LMetric → List String
  | .edgeTemp => ["Temperature (Sensor edge) (C)", "temperature_edge (C)"]
  | .junctionTemp => ["Temperature (Sensor junction) (C)", "temperature_hotspot (C)"]
  | .memTemp => ["Temperature (Sensor memory) (C)", "temperature_mem (C)"]
  | .usage => ["GPU use (%)", "average_gfx_activity (%)"]
  | .vram => ["GPU Memory Allocated (VRAM%)"]
  | .umc => ["average_umc_activity (%)"]
  | .mm => ["average_mm_activity (%)"]
  | .powerNow => ["Current Socket Graphics Package Power (W)", "current_socket_power (W)"]
  | .powerAvgSocket => ["average_socket_power (W)"]
  | .powerAvgPkg => ["Average Graphics Package Power (W)"]
  | .powerMax => ["Max Graphics Package Power (W)"]
  | .railSoc => ["voltage_soc (mV)"]
  | .railGfx => ["voltage_gfx (mV)"]
  | .railMem => ["voltage_mem (mV)"]
  | .railVcore => ["Voltage (mV)"]
  | .fan => ["current_fan_speed (rpm)"]
  | .clkCurGfx => ["current_gfxclk (MHz)"]
  | .clkCurSoc => ["current_socclk (MHz)"]
  | .clkCurU => ["current_uclk (MHz)"]
  | .clkCurV => ["current_vclk0 (MHz)"]
  | .clkCurD => ["current_dclk0 (MHz)"]
  | .clkAvgGfx => ["average_gfxclk_frequency (MHz)"]
  | .clkAvgSoc => ["average_socclk_frequency (MHz)"]
  | .clkAvgU => ["average_uclk_frequency (MHz)"]
  | .clkAvgV => ["average_vclk0_frequency (MHz)"]
  | .clkAvgD => ["average_dclk0_frequency (MHz)"]
  | .pcieWidth => ["pcie_link_width (Lanes)"]
  | .pcieSpeed => ["pcie_link_speed (0.1 GT/s)"]
  | .energyAcc => ["energy_accumulator (15.259uJ (2^-16))", "Energy counter"]
  | .energyAccum => ["Accumulated Energy (uJ)"]

/-- The (gauge, label combination) a logical metric publishes to for a
given device record. -/
def lmSampleKey : LMetric → Record → SampleKey
  | .edgeTemp, m => (.gpuEdgeTemperature, baseLabels m)
  | .junctionTemp, m => (.gpuJunctionTemperature, baseLabels m)
  | .memTemp, m => (.gpuMemTemperature, baseLabels m)
  | .usage, m => (.gpuUsage, baseLabels m)
  | .vram, m => (.gpuVRAMUsage, baseLabels m)
  | .umc, m => (.umcActivity, baseLabels m)
  | .mm, m => (.mmActivity, baseLabels m)
  | .powerNow, m => (.socketPowerNow, baseLabels m)
  | .powerAvgSocket, m => (.socketPowerAvg, baseLabels m)
  | .powerAvgPkg, m => (.pkgPowerAvg, baseLabels m)
  | .powerMax, m => (.pkgPowerMax, baseLabels m)
  | .railSoc, m => (.voltageMilliV, baseLabels m ++ [("rail", PyVal.str "soc")])
  | .railGfx, m => (.voltageMilliV, baseLabels m ++ [("rail", PyVal.str "gfx")])
  | .railMem, m => (.voltageMilliV, baseLabels m ++ [("rail", PyVal.str "mem")])
  | .railVcore, m => (.voltageMilliV, baseLabels m ++ [("rail", PyVal.str "vcore")])
  | .fan, m => (.fanRpm, baseLabels m)
  | .clkCurGfx, m => (.clkCurrentMHz, baseLabels m ++ [("clock", PyVal.str "gfxclk")])
  | .clkCurSoc, m => (.clkCurrentMHz, baseLabels m ++ [("clock", PyVal.str "socclk")])
  | .clkCurU, m => (.clkCurrentMHz, baseLabels m ++ [("clock", PyVal.str "uclk")])
  | .clkCurV, m => (.clkCurrentMHz, baseLabels m ++ [("clock", PyVal.str "vclk0")])
  | .clkCurD, m => (.clkCurrentMHz, baseLabels m ++ [("clock", PyVal.str "dclk0")])
  | .clkAvgGfx, m => (.clkAverageMHz, baseLabels m ++ [("clock", PyVal.str "gfxclk")])
  | .clkAvgSoc, m => (.clkAverageMHz, baseLabels m ++ [("clock", PyVal.str "socclk")])
  | .clkAvgU, m => (.clkAverageMHz, baseLabels m ++ [("clock", PyVal.str "uclk")])
  | .clkAvgV, m => (.clkAverageMHz, baseLabels m ++ [("clock", PyVal.str "vclk0")])
  | .clkAvgD, m => (.clkAverageMHz, baseLabels m ++ [("clock", PyVal.str "dclk0")])
  | .pcieWidth, m => (.pcieWidthLanes, baseLabels m)
  | .pcieSpeed, m => (.pcieSpeedGTs, baseLabels m)
  | .energyAcc, m => (.energyAccumulatorUJ, baseLabels m)
  | .energyAccum, m => (.accumulatedEnergyUJ, baseLabels m)

/-- A device record whose PCIe link-speed field holds the raw number 160
(tenths of GT/s). -/
def recPcie160 : Record := [("pcie_link_speed (0.1 GT/s)", PyVal.num 160)]

/-- The single device record of the C8 scenario. -/
def recUsage375 : Record :=
  [("Device Name", PyVal.str "X"), ("GPU use (%)", PyVal.str "37.5%")]

/-- The Device Identity labels of the C8 scenario: name "X", the other
two fields falling back to "unknown". -/
def labelsDevX : LabelVals :=
  [("device_name", PyVal.str "X"),
   ("device_id", PyVal.str "unknown"),
   ("subsystem_id", PyVal.str "unknown")]

/-!
## Registry lemmas
-/

@[simp]
theorem getSample_setSample_self (r : Registry) (k : SampleKey) (v : ℚ) :
    getSample (setSample r k v) k = some v := by
  induction r with
  | nil => simp [setSample, getSample]
  | cons p t ih =>
    obtain ⟨pk, pv⟩ := p
    by_cases hp : pk = k
    · subst hp
      simp [setSample, getSample]
    · simp [setSample, getSample, hp, ih]

@[simp]
theorem getSample_setSample_ne {k k' : SampleKey} (r : Registry) (v : ℚ)
    (h : k' ≠ k) : getSample (setSample r k' v) k = getSample r k := by
  induction r with
  | nil => simp [setSample, getSample, h]
  | cons p t ih =>
    obtain ⟨pk, pv⟩ := p
    by_cases hp : pk = k'
    · subst hp
      simp [setSample, getSample, h]
    · simp [setSample, getSample, hp, ih]

@[simp]
theorem setOpt_none (r : Registry) (k : SampleKey) : setOpt r k none = r := rfl

@[simp]
theorem setOpt_some (r : Registry) (k : SampleKey) (v : ℚ) :
    setOpt r k (some v) = setSample r k v := rfl

@[simp]
theorem getSample_setOpt_ne {k k' : SampleKey} (r : Registry) (o : Option ℚ)
    (h : k' ≠ k) : getSample (setOpt r k' o) k = getSample r k := by
  cases o <;> simp [h]

@[simp]
theorem setIfNotNone_none (r : Registry) (g : GaugeId) (L : LabelVals) :
    setIfNotNone r g L none = r := rfl

@[simp]
theorem setIfNotNone_some (r : Registry) (g : GaugeId) (L : LabelVals) (v : ℚ) :
    setIfNotNone r g L (some v) = setSample r (g, L) v := rfl

@[simp]
theorem getSample_setIfNotNone_ne {k : SampleKey} {g : GaugeId} {L : LabelVals}
    (r : Registry) (o : Option ℚ) (h : (g, L) ≠ k) :
    getSample (setIfNotNone r g L o) k = getSample r k := by
  cases o <;> simp [h]

/-- `m.get(_first_key(m, [k]))` collapses to `m.get(k)`: with a single
candidate, the reconciler is a plain lookup. -/
theorem recGet_firstKey_single (m : Record) (k : String) :
    recGet m (firstKey m [k]) = dictGet m k := by
  by_cases hk : (dictGet m k).isSome
  · simp [firstKey, hasKey, hk, recGet]
  · simp only [firstKey, hasKey, hk, Bool.false_eq_true, if_false, recGet]
    cases hx : dictGet m k
    · rfl
    · rw [hx] at hk
      simp at hk

/-- An N/A (or absent) value normalizes to `none` at any scale. -/
theorem toFloat_of_isNA {v : Option PyVal} (h : isNA v = true) (sc : ℚ) :
    toFloat v sc = none := by
  simp [toFloat, h]

/-- The refined normalizer agrees with the idealized one on every finite
outcome: whenever `toFloatPy` returns a finite value, `toFloat` returns
that same value. -/
theorem toFloat_eq_of_pyFinite (v : Option PyVal) (scale x : ℚ)
    (h : toFloatPy v scale = .ok (some (PyFloat.finite x))) :
    toFloat v scale = some x := by
  cases hna : isNA v with
  | true => simp [toFloatPy, hna] at h
  | false =>
    cases v with
    | none => simp [isNA] at hna
    | some pv =>
      cases pv with
      | num q =>
        by_cases hq : overflowThreshold ≤ |q|
        · simp [toFloatPy, hna, pyFloatOfNum, hq] at h
        · by_cases hqs : overflowThreshold ≤ |q * scale|
          · simp [toFloatPy, hna, pyFloatOfNum, hq, pyFloatMul, hqs] at h
          · simp [toFloatPy, hna, pyFloatOfNum, hq, pyFloatMul, hqs] at h
            simp [toFloat, hna, h]
      | str s =>
        cases hsn : searchNum s.data with
        | none => simp [toFloatPy, hna, hsn] at h
        | some t =>
          by_cases hl : overflowThreshold ≤ |numLitVal t|
          · simp [toFloatPy, hna, hsn, pyFloatOfLit, hl, pyFloatMul] at h
            split_ifs at h
          · by_cases hls : overflowThreshold ≤ |numLitVal t * scale|
            · simp [toFloatPy, hna, hsn, pyFloatOfLit, hl, pyFloatMul, hls] at h
            · simp [toFloatPy, hna, hsn, pyFloatOfLit, hl, pyFloatMul, hls] at h
              simp [toFloat, hna, hsn, h]

/-!
## Claims
-/

/-- Claim C2: for every raw field value that is structurally absent, or
whose textual form — trimmed of surrounding whitespace and upper-cased —
equals the sentinel "N/A", the Value Normalizer `_to_float` returns
"no value" (`none`), for any scale factor. -/
theorem claim_C2 (v : Option PyVal) (scale : ℚ)
    (h : v = none ∨ ∃ s, v = some (PyVal.str s) ∧ pyUpper (pyStrip s) = "N/A") :
    toFloat v scale = none := by
  rcases h with rfl | ⟨s, rfl, hs⟩
  · rfl
  · apply toFloat_of_isNA
    simp [isNA, hs]

/-- Witness for C2 at the concrete input `" n/a "` with scale 5. -/
theorem claim_C2_witness : toFloat (some (PyVal.str " n/a ")) 5 = none :=
  claim_C2 _ 5 (Or.inr ⟨" n/a ", rfl, by decide⟩)

/-- Claim C3: the reconciliation actually performed by the code,
`m.get(_first_key(m, keys))`, yields the value under the first candidate
that is a key of the record, and "no value" when none is; in particular
with candidates `["new_key", "old_key"]` and both keys present, the value
under `"new_key"` is returned. -/
theorem claim_C3 :
    (∀ (d : Record) (keys : List String),
      recGet d (firstKey d keys) = reconcilerSpec d keys) ∧
    (∀ v w : PyVal,
      recGet [("new_key", v), ("old_key", w)]
        (firstKey [("new_key", v), ("old_key", w)] ["new_key", "old_key"]) = some v) := by
  constructor
  · intro d keys
    induction keys with
    | nil => rfl
    | cons k t ih =>
      cases hx : dictGet d k with
      | none => simpa [firstKey, hasKey, hx, recGet, reconcilerSpec] using ih
      | some v => simp [firstKey, hasKey, hx, recGet, reconcilerSpec]
  · intro v w
    simp [firstKey, hasKey, dictGet, recGet]

/-- Claim C5: when the snapshot acquisition fails — the status command
exits non-zero or its output is not valid JSON — the raised error
propagates out of the (handler-free) loop body as a fatal error, and the
registry and driver-version state are exactly as they were before the
cycle began. -/
theorem claim_C5 (rsmiVer rlibVer driverVer : String) (r : Registry)
    (out : AcqOutcome) (e : PyError) (h : getGPUMetrics out = .error e) :
    pollIteration rsmiVer rlibVer driverVer r out = ⟨some e, driverVer, r⟩ := by
  simp [pollIteration, h]

/-- Witness for C5 at a concrete failed invocation. -/
theorem claim_C5_witness :
    pollIteration "" "" "" [] .toolFailure =
      ⟨some .calledProcessError, "", []⟩ :=
  claim_C5 "" "" "" [] .toolFailure .calledProcessError rfl

/-- Claim C6: every failure of the startup version query — the
invocation raising `CalledProcessError` (caught, warning only), or text
output on which neither version pattern matches — is non-fatal and
leaves both version strings at their `""` defaults. -/
theorem claim_C6 (o : VersionQueryOutcome)
    (h : o = .failed ∨ ∃ s, o = .output s ∧
      searchVer rsmiVerPat s.data = none ∧ searchVer rlibVerPat s.data = none) :
    getVersions o = ("", "") := by
  rcases h with rfl | ⟨s, rfl, h1, h2⟩
  · rfl
  · simp [getVersions, h1, h2]

/-- Witness for C6 at the concrete failed invocation. -/
theorem claim_C6_witness : getVersions .failed = ("", "") :=
  claim_C6 .failed (Or.inl rfl)

set_option maxRecDepth 10000 in
/-- `2^1024` fits under `1.8e308`, by kernel computation. -/
theorem two_pow_le_bigLit_nat : (2 : ℕ) ^ 1024 ≤ 18 * 10 ^ 307 := by decide

set_option maxRecDepth 10000 in
/-- `2^1024` fits under `10^400`, by kernel computation. -/
theorem two_pow_le_ten_pow_nat : (2 : ℕ) ^ 1024 ≤ 10 ^ 400 := by decide

/-- The overflow threshold is below `2^1024`. -/
theorem overflowThreshold_le_two_pow : overflowThreshold ≤ (2 : ℚ) ^ 1024 := by
  have h : (0 : ℚ) ≤ 2 ^ 970 := by positivity
  unfold overflowThreshold
  linarith

/-- The integer `10^400` is beyond the binary64 overflow threshold. -/
theorem overflowThreshold_le_ten_pow : overflowThreshold ≤ |(10 : ℚ) ^ 400| := by
  rw [abs_of_nonneg (by positivity)]
  calc overflowThreshold ≤ (2 : ℚ) ^ 1024 := overflowThreshold_le_two_pow
    _ ≤ (10 : ℚ) ^ 400 := by exact_mod_cast two_pow_le_ten_pow_nat

/-- The value of the 309-digit literal is beyond the binary64 overflow
threshold. -/
theorem overflowThreshold_le_bigLit :
    overflowThreshold ≤ |numLitVal ⟨false, 18 * 10 ^ 307, 0, 0⟩| := by
  have hval : numLitVal ⟨false, 18 * 10 ^ 307, 0, 0⟩ = ((18 * 10 ^ 307 : ℕ) : ℚ) := by
    simp [numLitVal]
  rw [hval, abs_of_nonneg (by positivity)]
  calc overflowThreshold ≤ (2 : ℚ) ^ 1024 := overflowThreshold_le_two_pow
    _ ≤ ((18 * 10 ^ 307 : ℕ) : ℚ) := by exact_mod_cast two_pow_le_bigLit_nat

set_option maxRecDepth 10000 in
/-- Claim C7 counterexample: `_to_float` is not total and not
finite-valued.  The integer input `10 ^ 400` (reachable, since
`json.loads` yields arbitrary-precision ints and `_is_na` passes numbers
straight through) makes `float(v)` raise `OverflowError`; and on the
309-digit literal `strBig` (value `1.8e308`) the regex matches the whole
literal and `float()` of it is the non-finite `inf`, which is what the
normalizer returns. -/
theorem claim_C7_counterexample :
    toFloatPy (some (PyVal.num (10 ^ 400))) 1 = .error .overflowError ∧
    toFloatPy (some (PyVal.str strBig)) 1 = .ok (some (PyFloat.inf false)) := by
  constructor
  · have hq := overflowThreshold_le_ten_pow
    have hq' : overflowThreshold ≤ ((10 : ℚ) ^ 400) := by
      rwa [abs_of_nonneg (by positivity)] at hq
    simp [toFloatPy, isNA, pyFloatOfNum, hq, hq']
  · have hs : searchNum strBig.data = some ⟨false, 18 * 10 ^ 307, 0, 0⟩ := by decide
    have hna : isNA (some (PyVal.str strBig)) = false := by decide
    have hle := overflowThreshold_le_bigLit
    simp [toFloatPy, hna, hs, pyFloatOfLit, hle, pyFloatMul]

/-- Claim C7 as amended: the Value Normalizer never raises on absent or
textual input — in particular unparsable text yields "no value", never
an error — but it is not total and not finite-valued in general: an
integer input whose magnitude reaches the binary64 overflow threshold
raises `OverflowError` before any scaling, in-range numbers are scaled
(by binary64 multiplication, which itself saturates), a matched decimal
literal is converted by saturating `float()` — so an overflowing literal
becomes a signed infinity — and a scaled infinity is never a finite
value. -/
theorem claim_C7 (v : Option PyVal) (scale : ℚ) :
    (v = none → toFloatPy v scale = .ok none) ∧
    (∀ s, v = some (PyVal.str s) → ∃ o, toFloatPy v scale = .ok o) ∧
    (∀ s, v = some (PyVal.str s) → searchNum s.data = none →
      toFloatPy v scale = .ok none) ∧
    (∀ q, v = some (PyVal.num q) → overflowThreshold ≤ |q| →
      toFloatPy v scale = .error .overflowError) ∧
    (∀ q, v = some (PyVal.num q) → |q| < overflowThreshold →
      toFloatPy v scale = .ok (some (pyFloatMul (PyFloat.finite q) scale))) ∧
    (∀ s t, v = some (PyVal.str s) → isNA v = false → searchNum s.data = some t →
      overflowThreshold ≤ |numLitVal t| →
      toFloatPy v scale = .ok (some (pyFloatMul (PyFloat.inf t.neg) scale))) ∧
    (∀ b x, pyFloatMul (PyFloat.inf b) scale ≠ PyFloat.finite x) := by
  refine ⟨?_, ?_, ?_, ?_, ?_, ?_, ?_⟩
  · rintro rfl
    rfl
  · rintro s rfl
    cases hna : isNA (some (PyVal.str s)) with
    | true => exact ⟨none, by simp [toFloatPy, hna]⟩
    | false =>
      cases hsn : searchNum s.data with
      | none => exact ⟨none, by simp [toFloatPy, hna, hsn]⟩
      | some t =>
        exact ⟨some (pyFloatMul (pyFloatOfLit t) scale), by simp [toFloatPy, hna, hsn]⟩
  · rintro s rfl hsn
    cases hna : isNA (some (PyVal.str s)) with
    | true => simp [toFloatPy, hna]
    | false => simp [toFloatPy, hna, hsn]
  · rintro q rfl hq
    simp [toFloatPy, isNA, pyFloatOfNum, hq]
  · rintro q rfl hq
    simp [toFloatPy, isNA, pyFloatOfNum, not_le.mpr hq]
  · rintro s t rfl hna hsn hle
    simp [toFloatPy, hna, hsn, pyFloatOfLit, hle]
  · intro b x
    simp only [pyFloatMul]
    split_ifs <;> simp

/-- Witness for C7 (amended), exercising the overflow hypothesis at the
concrete integer `10 ^ 400` with scale 7. -/
theorem claim_C7_witness :
    toFloatPy (some (PyVal.num (10 ^ 400))) 7 = .error .overflowError :=
  (claim_C7 (some (PyVal.num (10 ^ 400))) 7).2.2.2.1 (10 ^ 400) rfl
    overflowThreshold_le_ten_pow

/-- Claim C10: the `gfx_version` label falls back from `"GFX Version"`
to the lower-case `"GFX version"` field based on the first value's
truthiness, not key presence: whenever the first lookup (defaulting to
`""`) is falsy the label comes from `"GFX version"`, and only a truthy
`"GFX Version"` value wins. -/
theorem claim_C10 (m : Record) :
    (pyTruthy (dictGetD m "GFX Version" (PyVal.str "")) = false →
      gfxVersionLabel m = dictGetD m "GFX version" (PyVal.str "")) ∧
    (pyTruthy (dictGetD m "GFX Version" (PyVal.str "")) = true →
      gfxVersionLabel m = dictGetD m "GFX Version" (PyVal.str "")) := by
  constructor <;> intro h <;> simp [gfxVersionLabel, pyOr, h]

/-- Witness for C10: `"GFX Version"` present but empty (falsy), so the
label is taken from `"GFX version"`. -/
theorem claim_C10_witness :
    gfxVersionLabel [("GFX Version", PyVal.str ""), ("GFX version", PyVal.str "gfx90a")]
      = PyVal.str "gfx90a" :=
  ((claim_C10 [("GFX Version", PyVal.str ""), ("GFX version", PyVal.str "gfx90a")]).1
    (by decide)).trans (by decide)

/-- Claim C1: for every device record and every logical metric, if the
reconciled source value is structurally absent or the "N/A" sentinel
(`_is_na` holds), processing the record leaves the sample for that
metric's (gauge, label combination) unchanged: nothing is created and
nothing is overwritten. -/
theorem claim_C1 (g : LMetric) (m : Record) (r : Registry)
    (h : isNA (recGet m (firstKey m (lmKeys g))) = true) :
    getSample (processCard r m) (lmSampleKey g m) = getSample r (lmSampleKey g m) := by
  have hTF : ∀ sc : ℚ, toFloat (recGet m (firstKey m (lmKeys g))) sc = none :=
    fun sc => toFloat_of_isNA h sc
  cases g <;>
    simp only [lmKeys, recGet_firstKey_single] at hTF <;>
    simp [processCard, lmSampleKey, baseLabels, railTable, clkCurrentTable,
      clkAverageTable, recGet_firstKey_single, hTF]

/-- Witness for C1: the empty record (all candidates absent) and the GPU
usage metric, on the empty registry. -/
theorem claim_C1_witness :
    getSample (processCard [] []) (lmSampleKey .usage []) =
      getSample [] (lmSampleKey .usage []) :=
  claim_C1 .usage [] [] (by decide)

/-- Claim C4 counterexample: with the PCIe speed field holding 160, the
Value Normalizer — invoked exactly as the code invokes it, with its
default scale — yields 160 (tenths of GT/s), while the published sample
is 16: the ×0.1 conversion happened between normalization and publish,
not inside the Normalizer via its scale parameter. -/
theorem claim_C4_counterexample :
    toFloat (dictGet recPcie160 "pcie_link_speed (0.1 GT/s)") = some 160 ∧
    getSample (processCard [] recPcie160)
      (GaugeId.pcieSpeedGTs, baseLabels recPcie160) = some 16 ∧
    (160 : ℚ) ≠ 16 := by
  have h1 : toFloat (dictGet recPcie160 "pcie_link_speed (0.1 GT/s)") = some 160 := by
    simp [recPcie160, dictGet, toFloat, isNA]
  refine ⟨h1, ?_, by norm_num⟩
  have hnone : isNA none = true := rfl
  have hnum : isNA (some (PyVal.num 160)) = false := rfl
  simp [processCard, recPcie160, dictGet, firstKey, hasKey, recGet, toFloat,
    hnone, hnum, railTable, clkCurrentTable, clkAverageTable]
  norm_num

/-- Claim C4 as amended: the PCIe link-speed unit conversion is applied
exactly once, but at publish time rather than inside the Normalizer —
the Normalizer is invoked with its default scale 1 (yielding tenths of
GT/s) and the published sample is its result × 0.1 (GT/s). -/
theorem claim_C4 (r : Registry) (m : Record) (q : ℚ)
    (h : toFloat (dictGet m "pcie_link_speed (0.1 GT/s)") = some q) :
    getSample (processCard r m) (GaugeId.pcieSpeedGTs, baseLabels m)
      = some (q * (1 / 10)) := by
  simp [processCard, h]

/-- Witness for C4 (amended) at the concrete 160 record. -/
theorem claim_C4_witness :
    getSample (processCard [] recPcie160)
      (GaugeId.pcieSpeedGTs, baseLabels recPcie160) = some (160 * (1 / 10)) :=
  claim_C4 [] recPcie160 160 (by simp [recPcie160, dictGet, toFloat, isNA])

/-- Claim C9: with the PCIe speed field holding the raw value 160, the
published PCIe link-speed sample is exactly 16 (GT/s), from any starting
registry. -/
theorem claim_C9 (r : Registry) :
    getSample (processCard r recPcie160)
      (GaugeId.pcieSpeedGTs, baseLabels recPcie160) = some 16 := by
  have hnone : isNA none = true := rfl
  have hnum : isNA (some (PyVal.num 160)) = false := rfl
  simp [processCard, recPcie160, dictGet, firstKey, hasKey, recGet, toFloat,
    hnone, hnum, railTable, clkCurrentTable, clkAverageTable]
  norm_num

/-- Claim C8: a cycle on a snapshot holding one device record
`{"Device Name": "X", "GPU use (%)": "37.5%"}` (under any non-"system"
card key) sets the usage gauge to 37.5 under the labels
{device_name "X", device_id "unknown", subsystem_id "unknown"} — the
identity labels falling back to "unknown" — and leaves the VRAM gauge's
sample for those labels exactly as it was (no sample published). -/
theorem claim_C8 (card : String) (hcard : card ≠ "system")
    (rsmiVer rlibVer driverVer : String) (r : Registry) :
    baseLabels recUsage375 = labelsDevX ∧
    getSample (runCycle rsmiVer rlibVer driverVer r [(card, recUsage375)]).2
      (GaugeId.gpuUsage, labelsDevX) = some (75 / 2) ∧
    getSample (runCycle rsmiVer rlibVer driverVer r [(card, recUsage375)]).2
      (GaugeId.gpuVRAMUsage, labelsDevX)
      = getSample r (GaugeId.gpuVRAMUsage, labelsDevX) := by
  have hna : isNA (some (PyVal.str "37.5%")) = false := by decide
  have hsn : searchNum "37.5%".data = some ⟨false, 37, 5, 1⟩ := by decide
  have hnone : isNA none = true := rfl
  refine ⟨by decide, ?_, ?_⟩
  · simp [runCycle, processCard, recUsage375, labelsDevX, dictGet, dictGetD,
      firstKey, hasKey, recGet, toFloat, hna, hsn, hnone, baseLabels,
      railTable, clkCurrentTable, clkAverageTable, hcard]
    norm_num [numLitVal]
  · simp [runCycle, processCard, recUsage375, labelsDevX, dictGet, dictGetD,
      firstKey, hasKey, recGet, toFloat, hna, hsn, hnone, baseLabels,
      railTable, clkCurrentTable, clkAverageTable, hcard]

/-- Witness for C8 at the concrete card key "card0" and empty registry:
the usage sample is published and the VRAM gauge has no sample. -/
theorem claim_C8_witness :
    getSample (runCycle "" "" "" [] [("card0", recUsage375)]).2
      (GaugeId.gpuUsage, labelsDevX) = some (75 / 2) ∧
    getSample (runCycle "" "" "" [] [("card0", recUsage375)]).2
      (GaugeId.gpuVRAMUsage, labelsDevX) = none := by
  have h := claim_C8 "card0" (by decide) "" "" "" []
  exact ⟨h.2.1, h.2.2.trans rfl⟩

end RocmSmi

-- sanity checks (concrete evaluation)
example :
    RocmSmi.getVersions (.output "ROCM-SMI version: 2.0.0+8e78352\nROCM-SMI-LIB version: 6.0.0")
      = ("2.0.0+8e78352", "6.0.0") := by decide
example : RocmSmi.getVersions (.output "garbage") = ("", "") := by decide
example : RocmSmi.searchNum "37.5%".data = some ⟨false, 37, 5, 1⟩ := by decide
example : RocmSmi.searchNum "45.0C".data = some ⟨false, 45, 0, 1⟩ := by decide
example : RocmSmi.searchNum "abc".data = none := by decide
example : RocmSmi.isNA (some (.str "  n/a ")) = true := by decide
example : RocmSmi.isNA (some (.num 3)) = false := by decide
example : RocmSmi.searchNum "x-5".data = some ⟨true, 5, 0, 0⟩ := by decide
example : RocmSmi.searchNum "5.".data = some ⟨false, 5, 0, 0⟩ := by decide
example : RocmSmi.toFloat (some (.str "37.5%")) = some (75 / 2) := by
  have h : RocmSmi.searchNum "37.5%".data = some ⟨false, 37, 5, 1⟩ := by decide
  have hna : RocmSmi.isNA (some (.str "37.5%")) = false := by decide
  simp [RocmSmi.toFloat, h, hna]
  norm_num [RocmSmi.numLitVal]
